import Mathlib

/-
  Verification of the conversation/event-creation engine of the event chat
  application (chat controller, event service, AI extraction service).

  The JavaScript source is shallowly embedded: each modelled code region is a
  pure Lean function over explicit state, and every external call (LLM reply,
  LLM extraction, date/time parsing, database write) is an input drawn from an
  environment record, since those calls return data the code cannot constrain.
  Line numbers in comments refer to the chat controller source file unless
  stated otherwise.
-/

namespace AnimeChat

/-- JS String.prototype.toLowerCase as used on ASCII user messages. -/
def jsToLower (s : String) : String := String.mk (s.data.map Char.toLower)

/-- Whitespace characters removed by JS String.prototype.trim. -/
def isJsSpace (c : Char) : Bool := c = ' ' || c = '\t' || c = '\n' || c = '\r'

/-- JS String.prototype.trim. -/
def jsTrim (s : String) : String :=
  String.mk (((s.data.dropWhile (fun c => isJsSpace c)).reverse.dropWhile
    (fun c => isJsSpace c)).reverse)

/-- replace(/[.,!?]/g, "") from the confirmation normalization at line 208. -/
def stripConfPunct (s : String) : String :=
  String.mk (s.data.filter (fun c => !(c = '.' || c = ',' || c = '!' || c = '?')))

/-- replace(/[.,!?;:]/g, "") from the final safety net at line 474. -/
def stripFinalPunct (s : String) : String :=
  String.mk (s.data.filter
    (fun c => !(c = '.' || c = ',' || c = '!' || c = '?' || c = ';' || c = ':')))

/-- messageLower at line 208: toLowerCase().trim().replace(/[.,!?]/g,"").trim(). -/
def normalizeMsg (s : String) : String := jsTrim (stripConfPunct (jsTrim (jsToLower s)))

/-- messageLowerFinal at line 474: same with ; and : also stripped. -/
def normalizeMsgFinal (s : String) : String := jsTrim (stripFinalPunct (jsTrim (jsToLower s)))

def jsIncludesAux (sub : List Char) : List Char → Bool
  | [] => sub.isPrefixOf ([] : List Char)
  | c :: cs => sub.isPrefixOf (c :: cs) || jsIncludesAux sub cs

/-- JS String.prototype.includes. -/
def jsIncludes (s sub : String) : Bool := jsIncludesAux sub.data s.data

/-- JS String.prototype.startsWith. -/
def jsStartsWith (s p : String) : Bool := p.data.isPrefixOf s.data

/-- JS truthiness of a nullable string: null and the empty string are falsy. -/
def truthyS : Option String → Bool
  | none => false
  | some s => s != ""

/-- A valid JS Date, as returned by parseDateWithAI (which never returns an
invalid Date: it checks isNaN and returns null instead). Only the fields the
engine touches are modelled; setHours mutates hour and minute. -/
structure JsDate where
  day : Int
  hour : Nat := 0
  minute : Nat := 0
deriving DecidableEq, Repr

/-- Result of parseTimeWithAI on success: hours 0-23, minutes 0-59. -/
structure TimeObj where
  hours : Nat
  minutes : Nat
deriving DecidableEq, Repr

/-- Date.prototype.setHours(h, m, 0, 0) as used by the creation flow. -/
def setHours (d : JsDate) (t : TimeObj) : JsDate :=
  { d with hour := t.hours, minute := t.minutes }

/-- The context.creatingEvent sub-object (fields stored at lines 1001-1017).
Search-evidence fields that the confirmation turn only echoes into prompts
(serperDetails, formattedDisplay, top5 sections) are kept as opaque strings. -/
structure CreatingEvent where
  title : String
  extractedDate : Option String := none
  extractedTime : Option String := none
  extractedLocation : Option String := none
  serperExtractedDate : Option String := none
  waitingForConfirmation : Bool := true
  shownEventCard : Bool := true
  top5SnippetsSection : String := ""
  top5LinksSection : String := ""
deriving DecidableEq, Repr

/-- The conversation context fields the creation flow reads and writes. -/
structure ConvContext where
  creatingEvent : Option CreatingEvent := none
  lastEventIds : List Nat := []
  lastSearchQuery : Option String := none
deriving DecidableEq, Repr

/-- The user location record (user.lastLocation / reverse geocode result). -/
structure UserLoc where
  city : String := ""
  region : String := ""
deriving DecidableEq, Repr

/-- The event record as the engine persists it; mirrors the Event schema
fields the flows set (category, mode, price have no schema defaults). -/
structure EventData where
  title : String
  category : Option String := none
  startDate : Option JsDate := none
  location : Option String := none
  mode : Option String := none
  price : Option String := none
  snippet : Option String := none
  source : String
  sourceUrl : Option String := none
  userId : Nat
deriving DecidableEq, Repr

/-- The structured output of extractEventDetailsWithAI. -/
structure ExtractedDetails where
  intent : String
  eventTitle : Option String := none
  date : Option String := none
  time : Option String := none
  location : Option String := none
  category : Option String := none
  useUserLocation : Bool := false
deriving DecidableEq, Repr

/-- Responses of the external calls one confirmation turn can make. An error
value models the call throwing (timeout or non-2xx), which the code catches. -/
structure TurnEnv where
  aiConfirm : Except Unit String
  aiDirect : Except Unit String
  parseDate : String → Option JsDate
  parseTime : String → Option TimeObj
  createOk : Bool
  newEventId : Nat

inductive ConfIntent
  | proceed
  | edit
  | unclear
deriving DecidableEq, Repr

/-- Tier 1 positive tokens, lines 215-219. -/
def positiveTier (m : String) : Bool :=
  m = "yes" || jsStartsWith m "yes " || jsIncludes m "proceed" ||
  m = "ok" || m = "okay" || m = "sure" ||
  m = "confirm" || jsIncludes m "go ahead" || jsIncludes m "create it"

/-- Tier 2 negative tokens, lines 224-226 (no to editing means proceed). -/
def negativeTier (m : String) : Bool :=
  m = "no" || m = "nope" || m = "nah" || m = "n" ||
  m = "no." || m = "no!" || m = "no," ||
  jsStartsWith m "no " || jsStartsWith m "no." || jsStartsWith m "no,"

/-- Exact negative tokens re-checked inside the catch handler, line 272. -/
def exactNegative (m : String) : Bool :=
  m = "no" || m = "nope" || m = "nah" || m = "n"

/-- Confirmation classification, lines 207-278. Returns the intent and
whether the AI tier was consulted. The deterministic token tiers run first;
only otherwise is generateResponse called (and, if it answers neither proceed
nor edit, a second direct-understanding call); a thrown call is caught and
the exact negative tokens decide, defaulting to unclear. -/
def classifyConfirmation (msg : String) (env : TurnEnv) : ConfIntent × Bool :=
  let m := normalizeMsg msg
  if positiveTier m then (ConfIntent.proceed, false)
  else if negativeTier m then (ConfIntent.proceed, false)
  else
    match env.aiConfirm with
    | Except.ok r =>
      let rl := jsTrim (jsToLower r)
      if jsIncludes rl "proceed" then (ConfIntent.proceed, true)
      else if jsIncludes rl "edit" then (ConfIntent.edit, true)
      else
        match env.aiDirect with
        | Except.ok d =>
          let dl := jsTrim (jsToLower d)
          if jsIncludes dl "proceed" then (ConfIntent.proceed, true)
          else if jsIncludes dl "edit" then (ConfIntent.edit, true)
          else (ConfIntent.unclear, true)
        | Except.error _ =>
          if exactNegative m then (ConfIntent.proceed, true) else (ConfIntent.unclear, true)
    | Except.error _ =>
      if exactNegative m then (ConfIntent.proceed, true) else (ConfIntent.unclear, true)

/-- Date resolution shared by both proceed paths (lines 301-317 and 497-511):
parse the stored extracted date; if that yields no valid date, parse the
Serper-extracted date; otherwise no date. extractFirstDate only trims. -/
def resolveFinalDate (ce : CreatingEvent) (env : TurnEnv) : Option JsDate :=
  let first : Option JsDate :=
    match ce.extractedDate with
    | some s => if s != "" then env.parseDate (jsTrim s) else none
    | none => none
  match first with
  | some d => some d
  | none =>
    match ce.serperExtractedDate with
    | some s => if s != "" then env.parseDate (jsTrim s) else none
    | none => none

/-- Location resolution at lines 337 and 524:
savedExtractedLocation || (userLocation ? (city + ", " + region).trim() : null) || null. -/
def resolveFinalLocation (ce : CreatingEvent) (uloc : Option UserLoc) : Option String :=
  if truthyS ce.extractedLocation then ce.extractedLocation
  else
    match uloc with
    | some u =>
      let s := jsTrim (u.city ++ ", " ++ u.region)
      if s != "" then some s else none
    | none => none

/-- Outcome of one confirmation turn. crashed models an uncaught TypeError
inside the turn, which the top-level catch turns into an HTTP 500; persisted
and createFailed carry the updated conversation context. -/
inductive Outcome
  | persisted (e : EventData) (ctx : ConvContext)
  | createFailed (ctx : ConvContext)
  | editPrompt (ctx : ConvContext)
  | clarify (ctx : ConvContext)
  | crashed
deriving DecidableEq, Repr

/-- The finalEventDate of the main proceed branch after the time step of
lines 326-334: if an extracted time is stored and parses, setHours is called
on finalEventDate without checking that a date exists, so with a null date
this is a TypeError on null, modelled as the outer none. -/
def mainFinalDate (ce : CreatingEvent) (env : TurnEnv) : Option (Option JsDate) :=
  match ce.extractedTime with
  | some t =>
    if t != "" then
      match env.parseTime t with
      | some tm =>
        match resolveFinalDate ce env with
        | some d => some (some (setHours d tm))
        | none => none
      | none => some (resolveFinalDate ce env)
    else some (resolveFinalDate ce env)
  | none => some (resolveFinalDate ce env)

/-- The main proceed branch, lines 282-447. On success the new event id is
unshifted onto lastEventIds and the list is sliced to 5, and creatingEvent
is deleted; on a failed create the context is left unchanged. -/
def proceedMain (ce : CreatingEvent) (ctx : ConvContext) (userId : Nat)
    (uloc : Option UserLoc) (env : TurnEnv) : Outcome :=
  match mainFinalDate ce env with
  | none => Outcome.crashed
  | some finalDate =>
    if env.createOk then
      Outcome.persisted
        { title := ce.title
          startDate := finalDate
          location := resolveFinalLocation ce uloc
          source := "user_created"
          userId := userId }
        { ctx with creatingEvent := none
                   lastEventIds := (env.newEventId :: ctx.lastEventIds).take 5 }
    else Outcome.createFailed ctx

/-- The finalEventDate of the fallback proceed logic: here the time step at
line 517 is guarded by finalEventDate as well, so no crash is possible. -/
def fallbackFinalDate (ce : CreatingEvent) (env : TurnEnv) : Option JsDate :=
  match ce.extractedTime with
  | some t =>
    if t != "" then
      match resolveFinalDate ce env with
      | some d =>
        match env.parseTime t with
        | some tm => some (setHours d tm)
        | none => some d
      | none => none
    else resolveFinalDate ce env
  | none => resolveFinalDate ce env

/-- The duplicated proceed logic inside the unclear/no fallback, lines
487-613. Difference from proceedMain besides the guarded time step: the new
event id is unshifted onto lastEventIds without the slice to 5 (line 542). -/
def proceedFallback (ce : CreatingEvent) (ctx : ConvContext) (userId : Nat)
    (uloc : Option UserLoc) (env : TurnEnv) : Outcome :=
  if env.createOk then
    Outcome.persisted
      { title := ce.title
        startDate := fallbackFinalDate ce env
        location := resolveFinalLocation ce uloc
        source := "user_created"
        userId := userId }
      { ctx with creatingEvent := none
                 lastEventIds := env.newEventId :: ctx.lastEventIds }
  else Outcome.createFailed ctx

/-- True exactly on the persisted outcome. -/
def Outcome.isPersisted : Outcome → Bool
  | Outcome.persisted _ _ => true
  | _ => false

/-- Token set of the final safety net, lines 475-476. -/
def finalNoCheck (mf : String) : Bool :=
  mf = "no" || mf = "nope" || mf = "nah" || mf = "n" ||
  jsStartsWith mf "no " || mf = "not" || mf = "nope."

/-- One confirmation turn, lines 189-639: the code region entered when
creatingEvent.waitingForConfirmation is true. ce is the stored
context.creatingEvent of ctx. On edit (lines 448-471) the reply only asks
what to change and the context is persisted unchanged; on unclear the final
safety net re-checks negative tokens and runs the duplicated proceed logic,
otherwise a clarifying question is asked with the context unchanged. -/
def confirmationTurn (ce : CreatingEvent) (ctx : ConvContext) (userId : Nat)
    (uloc : Option UserLoc) (msg : String) (env : TurnEnv) : Outcome :=
  match (classifyConfirmation msg env).1 with
  | ConfIntent.proceed => proceedMain ce ctx userId uloc env
  | ConfIntent.edit => Outcome.editPrompt ctx
  | ConfIntent.unclear =>
    if finalNoCheck (normalizeMsgFinal msg) then proceedFallback ce ctx userId uloc env
    else Outcome.clarify ctx

/-- Environment of intent resolution: the extraction result the AI would
return for this message, and the narrow context-disambiguation reply. -/
structure IntentEnv where
  extract : ExtractedDetails
  contextResp : Except Unit String

/-- The forced extraction object built at line 110 when a confirmation is
pending: intent create, no new event title extracted. -/
def forcedCreateDetails : ExtractedDetails := { intent := "create", eventTitle := none }

/-- Intent resolution, lines 101-150. If creatingEvent.waitingForConfirmation
is truthy the intent is forced to create without calling
extractEventDetailsWithAI; otherwise extraction runs and a general intent
with unfinished context triggers one narrow disambiguation call. The Bool
records whether extractEventDetailsWithAI was invoked. -/
def resolveIntent (ctx : ConvContext) (env : IntentEnv) :
    String × ExtractedDetails × Bool :=
  let waiting :=
    match ctx.creatingEvent with
    | some ce => ce.waitingForConfirmation
    | none => false
  if waiting then ("create", forcedCreateDetails, false)
  else
    let ed := env.extract
    if ed.intent = "general" &&
        (truthyS ctx.lastSearchQuery || decide (ctx.lastEventIds.length > 0) ||
         ctx.creatingEvent.isSome) then
      match env.contextResp with
      | Except.ok r =>
        let rl := jsTrim (jsToLower r)
        if jsIncludes rl "discovery" then ("discovery", { ed with intent := "discovery" }, true)
        else if jsIncludes rl "create" then ("create", { ed with intent := "create" }, true)
        else ("general", ed, true)
      | Except.error _ => ("general", ed, true)
    else (ed.intent, ed, true)

/-- One search result / discovery candidate as deduplicated, validated and
persisted by the discovery flow. -/
structure REvent where
  title : String
  sourceUrl : Option String := none
  location : Option String := none
  snippet : Option String := none
deriving DecidableEq, Repr

/-- One inner-loop step of the two-row Levenshtein update in editDistance
(lines 1934-1952): lastValue is carried along the row, the new row collects
the values written into costs. chars is the remaining suffix of s2 and costs
the matching suffix of the previous row (one entry longer). -/
def levInner (c : Char) : List Char → List Nat → Nat → List Nat
  | y :: ys, kprev :: krest, lastValue =>
    let newValue :=
      if c != y then Nat.min (Nat.min kprev lastValue) (krest.headD 0) + 1
      else kprev
    lastValue :: levInner c ys krest newValue
  | _, _, lastValue => [lastValue]

/-- Outer loop of editDistance over the characters of s1; i counts rows. -/
def levRows (s2 : List Char) : List Char → Nat → List Nat → List Nat
  | [], _, costs => costs
  | c :: cs, i, costs => levRows s2 cs (i + 1) (levInner c s2 costs i)

/-- The editDistance helper (lines 1930-1954): lowercases both arguments,
then runs the two-row dynamic program; row 0 is 0..n and the answer is the
last entry of the final row. -/
def editDistance (s1 s2 : String) : Nat :=
  let l1 := (jsToLower s1).data
  let l2 := (jsToLower s2).data
  (levRows l2 l1 1 (List.range (l2.length + 1))).getLastD 0

/-- calculateSimilarity (lines 1922-1928) as the exact pair
(longerLength - editDistance, longerLength); the JS value is their quotient
as a double. -/
def similarityNum (s1 s2 : String) : Nat × Nat :=
  let longer := if s1.data.length > s2.data.length then s1 else s2
  let shorter := if s1.data.length > s2.data.length then s2 else s1
  let longerLength := longer.data.length
  (longerLength - editDistance longer shorter, longerLength)

/-- The comparison calculateSimilarity(s1, s2) > 0.9 at line 1108, in exact
arithmetic: (L - d) / L > 9 / 10 iff 10 * (L - d) > 9 * L (L = 0 gives
similarity 1.0). IEEE division is correctly rounded and the exact quotient
is at least 1 / (10 * L) away from 9 / 10 whenever they differ, so for any
realistic length the float comparison agrees with the exact one. -/
def simGT09 (s1 s2 : String) : Bool :=
  let p := similarityNum s1 s2
  if p.2 = 0 then true else decide (10 * p.1 > 9 * p.2)

/-- titleKey at line 1098. -/
def titleKey (e : REvent) : String := jsTrim (jsToLower e.title)

/-- urlKey at line 1099: sourceUrl ? sourceUrl.toLowerCase().trim() : null,
with an empty sourceUrl falsy. -/
def urlKey (e : REvent) : Option String :=
  match e.sourceUrl with
  | some u => if u != "" then some (jsTrim (jsToLower u)) else none
  | none => none

/-- The in-batch deduplication loop of the discovery flow, lines 1092-1119.
An event is skipped when its title key or url key was already seen, or when
some already kept title has similarity strictly greater than 0.9 to it;
otherwise it is kept and its keys recorded. -/
def dedupLoop : List REvent → List String → List String → List REvent
  | [], _, _ => []
  | e :: es, seenTitles, seenUrls =>
    if seenTitles.contains (titleKey e) ||
        (match urlKey e with | some u => seenUrls.contains u | none => false) then
      dedupLoop es seenTitles seenUrls
    else if seenTitles.any (fun st => simGT09 (titleKey e) st) then
      dedupLoop es seenTitles seenUrls
    else
      e :: dedupLoop es (titleKey e :: seenTitles)
        (match urlKey e with | some u => u :: seenUrls | none => seenUrls)

/-- Entry point of the deduplication, with empty seen sets. -/
def dedupEvents (events : List REvent) : List REvent := dedupLoop events [] []

/-- The TBD post-filter of the discovery flow, lines 1223-1232: drop a
candidate exactly when its location is truthy and equals the literal
"Location TBD" or lowercases and trims to "tbd". -/
def tbdKeep (e : REvent) : Bool :=
  match e.location with
  | some l =>
    if l != "" then !(l = "Location TBD" || jsTrim (jsToLower l) = "tbd")
    else true
  | none => true

/-- The validated-candidate post-processing at lines 1219-1233 after the AI
index selection: filter out explicit TBD locations and keep at most 5; these
are the candidates the discovery flow then persists. -/
def discoveryPostFilter (candidates : List REvent) : List REvent :=
  (candidates.filter tbdKeep).take 5

/-- One Registration row. -/
structure Registration where
  userId : Nat
  eventId : Nat
  name : String
  email : String
  status : String
deriving DecidableEq, Repr

inductive RegResult
  | ok (r : Registration)
  | err (msg : String)
deriving DecidableEq, Repr

/-- createRegistration from the event service (lines 436-505 of that file):
query for an existing (userId, eventId) registration first; if present,
return the already-registered error and change nothing, otherwise insert a
confirmed registration. The store is the Registration collection. -/
def createRegistration (store : List Registration) (userId eventId : Nat)
    (name email : String) : RegResult × List Registration :=
  if store.any (fun r => r.userId = userId && r.eventId = eventId) then
    (RegResult.err "You are already registered for this event", store)
  else
    let r : Registration :=
      { userId := userId, eventId := eventId, name := name, email := email
        status := "confirmed" }
    (RegResult.ok r, store ++ [r])

theorem exactNegative_negativeTier (m : String) (h : exactNegative m = true) :
    negativeTier m = true := by
  simp only [exactNegative, Bool.or_eq_true, decide_eq_true_eq] at h
  rcases h with ((h | h) | h) | h <;> subst h <;> decide

theorem classify_proceed_of_negativeTier (msg : String) (env : TurnEnv)
    (h : negativeTier (normalizeMsg msg) = true) :
    classifyConfirmation msg env = (ConfIntent.proceed, false) := by
  unfold classifyConfirmation
  by_cases hp : positiveTier (normalizeMsg msg) = true
  · simp [hp]
  · simp [hp, h]

theorem confirmationTurn_eq_proceedMain (ce : CreatingEvent) (ctx : ConvContext)
    (userId : Nat) (uloc : Option UserLoc) (msg : String) (env : TurnEnv)
    (h : (classifyConfirmation msg env).1 = ConfIntent.proceed) :
    confirmationTurn ce ctx userId uloc msg env = proceedMain ce ctx userId uloc env := by
  unfold confirmationTurn
  rw [h]

theorem proceedMain_ne_editPrompt (ce : CreatingEvent) (ctx : ConvContext)
    (userId : Nat) (uloc : Option UserLoc) (env : TurnEnv) (c : ConvContext) :
    proceedMain ce ctx userId uloc env ≠ Outcome.editPrompt c := by
  unfold proceedMain
  cases hm : mainFinalDate ce env with
  | none => simp
  | some fd =>
    by_cases hc : env.createOk = true
    · simp [hc]
    · simp [hc]

theorem proceedMain_ne_clarify (ce : CreatingEvent) (ctx : ConvContext)
    (userId : Nat) (uloc : Option UserLoc) (env : TurnEnv) (c : ConvContext) :
    proceedMain ce ctx userId uloc env ≠ Outcome.clarify c := by
  unfold proceedMain
  cases hm : mainFinalDate ce env with
  | none => simp
  | some fd =>
    by_cases hc : env.createOk = true
    · simp [hc]
    · simp [hc]

theorem proceedMain_isPersisted_of_ok (ce : CreatingEvent) (ctx : ConvContext)
    (userId : Nat) (uloc : Option UserLoc) (env : TurnEnv)
    (hok : env.createOk = true)
    (hnc : proceedMain ce ctx userId uloc env ≠ Outcome.crashed) :
    (proceedMain ce ctx userId uloc env).isPersisted = true := by
  unfold proceedMain at hnc ⊢
  cases hm : mainFinalDate ce env with
  | none => simp [hm] at hnc
  | some fd => simp [hm, hok, Outcome.isPersisted]

/-- C1: for every session whose stored context has
creatingEvent.waitingForConfirmation set to true, intent resolution forces
the intent to create with no newly extracted title, and the AI extraction
call is not made, whatever the extraction environment would have returned. -/
theorem confirmation_pending_forces_create_intent
    (ctx : ConvContext) (ce : CreatingEvent) (env : IntentEnv)
    (hce : ctx.creatingEvent = some ce)
    (hw : ce.waitingForConfirmation = true) :
    resolveIntent ctx env = ("create", forcedCreateDetails, false) := by
  unfold resolveIntent
  rw [hce]
  simp [hw]

theorem confirmation_pending_forces_create_intent_witness :
    resolveIntent { creatingEvent := some { title := "Tech Summit 2025" } }
      { extract := { intent := "discovery", eventTitle := some "Other Title" }
        contextResp := Except.error () } = ("create", forcedCreateDetails, false) :=
  confirmation_pending_forces_create_intent
    { creatingEvent := some { title := "Tech Summit 2025" } }
    { title := "Tech Summit 2025" } _ rfl rfl

/-- C2: while waiting for confirmation, a message that normalizes to one of
the negative tokens no, nope, nah, n is classified proceed by the
deterministic tier without consulting the AI, the turn never issues an edit
prompt, and whenever the persistence call succeeds and the turn does not
crash, the outcome is the persisted draft event. -/
theorem negative_token_means_proceed
    (ce : CreatingEvent) (ctx : ConvContext) (userId : Nat)
    (uloc : Option UserLoc) (msg : String) (env : TurnEnv)
    (hneg : exactNegative (normalizeMsg msg) = true) :
    classifyConfirmation msg env = (ConfIntent.proceed, false) ∧
    (∀ c, confirmationTurn ce ctx userId uloc msg env ≠ Outcome.editPrompt c) ∧
    (env.createOk = true →
      confirmationTurn ce ctx userId uloc msg env ≠ Outcome.crashed →
      (confirmationTurn ce ctx userId uloc msg env).isPersisted = true) := by
  have hcl := classify_proceed_of_negativeTier msg env (exactNegative_negativeTier _ hneg)
  have hct := confirmationTurn_eq_proceedMain ce ctx userId uloc msg env (by rw [hcl])
  refine ⟨hcl, ?_, ?_⟩
  · intro c
    rw [hct]
    exact proceedMain_ne_editPrompt ce ctx userId uloc env c
  · intro hok hnc
    rw [hct] at hnc ⊢
    exact proceedMain_isPersisted_of_ok ce ctx userId uloc env hok hnc

theorem negative_token_means_proceed_witness :
    exactNegative (normalizeMsg "no") = true ∧
    classifyConfirmation "no"
      { aiConfirm := Except.ok "irrelevant", aiDirect := Except.ok "irrelevant"
        parseDate := fun _ => none, parseTime := fun _ => none
        createOk := true, newEventId := 1 } = (ConfIntent.proceed, false) :=
  ⟨by decide,
    (negative_token_means_proceed { title := "Tech Summit 2025" }
      { creatingEvent := some { title := "Tech Summit 2025" } } 7 none "no"
      { aiConfirm := Except.ok "irrelevant", aiDirect := Except.ok "irrelevant"
        parseDate := fun _ => none, parseTime := fun _ => none
        createOk := true, newEventId := 1 } (by decide)).1⟩

/-- C10: while waiting for confirmation, any message whose normalized form
starts with the prefix "no " is classified proceed by the deterministic
token tier without the AI tier running, so the turn never reaches the edit
prompt or the clarification question. -/
theorem no_prefix_is_deterministic_proceed
    (ce : CreatingEvent) (ctx : ConvContext) (userId : Nat)
    (uloc : Option UserLoc) (msg : String) (env : TurnEnv)
    (hpre : jsStartsWith (normalizeMsg msg) "no " = true) :
    classifyConfirmation msg env = (ConfIntent.proceed, false) ∧
    (∀ c, confirmationTurn ce ctx userId uloc msg env ≠ Outcome.editPrompt c) ∧
    (∀ c, confirmationTurn ce ctx userId uloc msg env ≠ Outcome.clarify c) := by
  have hneg : negativeTier (normalizeMsg msg) = true := by
    simp [negativeTier, hpre]
  have hcl := classify_proceed_of_negativeTier msg env hneg
  have hct := confirmationTurn_eq_proceedMain ce ctx userId uloc msg env (by rw [hcl])
  refine ⟨hcl, ?_, ?_⟩
  · intro c
    rw [hct]
    exact proceedMain_ne_editPrompt ce ctx userId uloc env c
  · intro c
    rw [hct]
    exact proceedMain_ne_clarify ce ctx userId uloc env c

theorem no_prefix_is_deterministic_proceed_witness :
    jsStartsWith (normalizeMsg "no, change the date") "no " = true ∧
    classifyConfirmation "no, change the date"
      { aiConfirm := Except.ok "edit", aiDirect := Except.ok "edit"
        parseDate := fun _ => none, parseTime := fun _ => none
        createOk := true, newEventId := 1 } = (ConfIntent.proceed, false) ∧
    confirmationTurn { title := "Tech Summit 2025" }
      { creatingEvent := some { title := "Tech Summit 2025" } } 7 none
      "no, change the date"
      { aiConfirm := Except.ok "edit", aiDirect := Except.ok "edit"
        parseDate := fun _ => none, parseTime := fun _ => none
        createOk := true, newEventId := 1 } =
      Outcome.persisted
        { title := "Tech Summit 2025", startDate := none, location := none
          source := "user_created", userId := 7 }
        { creatingEvent := none, lastEventIds := [1] } :=
  ⟨by decide,
    (no_prefix_is_deterministic_proceed { title := "Tech Summit 2025" }
      { creatingEvent := some { title := "Tech Summit 2025" } } 7 none
      "no, change the date"
      { aiConfirm := Except.ok "edit", aiDirect := Except.ok "edit"
        parseDate := fun _ => none, parseTime := fun _ => none
        createOk := true, newEventId := 1 } (by decide)).1,
    by decide⟩

theorem resolveFinalDate_none_of (ce : CreatingEvent) (env : TurnEnv)
    (hnd : ∀ s, env.parseDate s = none) : resolveFinalDate ce env = none := by
  unfold resolveFinalDate
  cases hd : ce.extractedDate with
  | none =>
    cases hs : ce.serperExtractedDate with
    | none => simp
    | some s => simp [hnd]
  | some s =>
    cases hs : ce.serperExtractedDate with
    | none => simp [hnd]
    | some s2 => simp [hnd]

theorem mainFinalDate_of_noDate (ce : CreatingEvent) (env : TurnEnv)
    (h : resolveFinalDate ce env = none) :
    mainFinalDate ce env = none ∨ mainFinalDate ce env = some none := by
  unfold mainFinalDate
  cases ht : ce.extractedTime with
  | none => right; rw [h]
  | some t =>
    by_cases he : (t != "") = true
    · cases hp : env.parseTime t with
      | none => right; simp [he, hp, h]
      | some tm => left; simp [he, hp, h]
    · right
      rw [Bool.not_eq_true] at he
      simp [he, h]

theorem fallbackFinalDate_of_noDate (ce : CreatingEvent) (env : TurnEnv)
    (h : resolveFinalDate ce env = none) : fallbackFinalDate ce env = none := by
  unfold fallbackFinalDate
  cases ht : ce.extractedTime with
  | none => exact h
  | some t =>
    by_cases he : (t != "") = true
    · simp [he, h]
    · rw [Bool.not_eq_true] at he
      simp [he, h]

theorem proceedMain_persisted_inv (ce : CreatingEvent) (ctx : ConvContext)
    (userId : Nat) (uloc : Option UserLoc) (env : TurnEnv)
    (e : EventData) (c : ConvContext)
    (hp : proceedMain ce ctx userId uloc env = Outcome.persisted e c) :
    ∃ fd, mainFinalDate ce env = some fd ∧
      e = { title := ce.title, startDate := fd
            location := resolveFinalLocation ce uloc
            source := "user_created", userId := userId } ∧
      c = { ctx with creatingEvent := none
                     lastEventIds := (env.newEventId :: ctx.lastEventIds).take 5 } := by
  unfold proceedMain at hp
  split at hp
  · exact Outcome.noConfusion hp
  · next fd hm =>
    split at hp
    · simp only [Outcome.persisted.injEq] at hp
      exact ⟨fd, hm, hp.1.symm, hp.2.symm⟩
    · exact Outcome.noConfusion hp

theorem proceedFallback_persisted_inv (ce : CreatingEvent) (ctx : ConvContext)
    (userId : Nat) (uloc : Option UserLoc) (env : TurnEnv)
    (e : EventData) (c : ConvContext)
    (hp : proceedFallback ce ctx userId uloc env = Outcome.persisted e c) :
    e = { title := ce.title, startDate := fallbackFinalDate ce env
          location := resolveFinalLocation ce uloc
          source := "user_created", userId := userId } ∧
    c = { ctx with creatingEvent := none
                   lastEventIds := env.newEventId :: ctx.lastEventIds } := by
  unfold proceedFallback at hp
  split at hp
  · simp only [Outcome.persisted.injEq] at hp
    exact ⟨hp.1.symm, hp.2.symm⟩
  · exact Outcome.noConfusion hp

/-- C3: any event persisted by a confirmation turn in an environment where
no date string parses carries no startDate (nothing is fabricated), and the
record consists of exactly the title, the optional resolved location, the
source user_created and the user id: category, mode, price, snippet and
sourceUrl are all absent. -/
theorem proceed_persists_without_date
    (ce : CreatingEvent) (ctx : ConvContext) (userId : Nat)
    (uloc : Option UserLoc) (msg : String) (env : TurnEnv)
    (e : EventData) (c : ConvContext)
    (hnd : ∀ s, env.parseDate s = none)
    (hp : confirmationTurn ce ctx userId uloc msg env = Outcome.persisted e c) :
    e.startDate = none ∧ e.title = ce.title ∧ e.source = "user_created" ∧
    e.userId = userId ∧ e.location = resolveFinalLocation ce uloc ∧
    e.category = none ∧ e.mode = none ∧ e.price = none ∧
    e.snippet = none ∧ e.sourceUrl = none := by
  have hrd := resolveFinalDate_none_of ce env hnd
  unfold confirmationTurn at hp
  split at hp
  · obtain ⟨fd, hm, he, _⟩ := proceedMain_persisted_inv ce ctx userId uloc env e c hp
    have hfd : fd = none := by
      rcases mainFinalDate_of_noDate ce env hrd with h0 | h0
      · rw [h0] at hm; exact absurd hm (by simp)
      · rw [h0] at hm; injection hm with hm2; exact hm2.symm
    subst he
    subst hfd
    simp
  · simp at hp
  · split at hp
    · obtain ⟨he, _⟩ := proceedFallback_persisted_inv ce ctx userId uloc env e c hp
      have hfb := fallbackFinalDate_of_noDate ce env hrd
      subst he
      simp [hfb]
    · simp at hp

theorem proceed_persists_without_date_witness :
    confirmationTurn { title := "Tech Summit 2025" }
      { creatingEvent := some { title := "Tech Summit 2025" } } 7 none "yes"
      { aiConfirm := Except.ok "x", aiDirect := Except.ok "x"
        parseDate := fun _ => none, parseTime := fun _ => none
        createOk := true, newEventId := 1 } =
      Outcome.persisted
        { title := "Tech Summit 2025", startDate := none, location := none
          source := "user_created", userId := 7 }
        { creatingEvent := none, lastEventIds := [1] } ∧
    ({ title := "Tech Summit 2025", startDate := none, location := none
       source := "user_created", userId := 7 } : EventData).startDate = none ∧
    ({ title := "Tech Summit 2025", startDate := none, location := none
       source := "user_created", userId := 7 } : EventData).category = none :=
  ⟨by decide,
    (proceed_persists_without_date { title := "Tech Summit 2025" }
      { creatingEvent := some { title := "Tech Summit 2025" } } 7 none "yes"
      { aiConfirm := Except.ok "x", aiDirect := Except.ok "x"
        parseDate := fun _ => none, parseTime := fun _ => none
        createOk := true, newEventId := 1 }
      { title := "Tech Summit 2025", startDate := none, location := none
        source := "user_created", userId := 7 }
      { creatingEvent := none, lastEventIds := [1] }
      (fun _ => rfl) (by decide)).1,
    (proceed_persists_without_date { title := "Tech Summit 2025" }
      { creatingEvent := some { title := "Tech Summit 2025" } } 7 none "yes"
      { aiConfirm := Except.ok "x", aiDirect := Except.ok "x"
        parseDate := fun _ => none, parseTime := fun _ => none
        createOk := true, newEventId := 1 }
      { title := "Tech Summit 2025", startDate := none, location := none
        source := "user_created", userId := 7 }
      { creatingEvent := none, lastEventIds := [1] }
      (fun _ => rfl) (by decide)).2.2.2.2.2.1⟩

/-- C4: evaluation at the failing input. A proceed turn whose stored context
has an extracted time that parses but no parseable date crashes with a
TypeError (setHours on a null finalEventDate) in the main proceed branch,
while the duplicated fallback branch, which guards the time step with the
date, persists the same draft without a date. -/
theorem stored_time_without_date_crashes_turn :
    confirmationTurn
      { title := "Tech Summit 2025", extractedTime := some "19:00" }
      { creatingEvent := some
          { title := "Tech Summit 2025", extractedTime := some "19:00" } }
      7 none "yes"
      { aiConfirm := Except.ok "x", aiDirect := Except.ok "x"
        parseDate := fun _ => none
        parseTime := fun _ => some { hours := 19, minutes := 0 }
        createOk := true, newEventId := 1 } = Outcome.crashed ∧
    proceedFallback
      { title := "Tech Summit 2025", extractedTime := some "19:00" }
      { creatingEvent := some
          { title := "Tech Summit 2025", extractedTime := some "19:00" } }
      7 none
      { aiConfirm := Except.ok "x", aiDirect := Except.ok "x"
        parseDate := fun _ => none
        parseTime := fun _ => some { hours := 19, minutes := 0 }
        createOk := true, newEventId := 1 } =
      Outcome.persisted
        { title := "Tech Summit 2025", startDate := none, location := none
          source := "user_created", userId := 7 }
        { creatingEvent := none, lastEventIds := [1] } :=
  ⟨by decide, by decide⟩

/-- C5: evaluation at the failing input. When a confirmation message reaches
the unclear/no fallback persist path (here the message "not", with the AI
tier answering unclear) and lastEventIds already holds five entries, the new
event id is prepended without the slice to 5, leaving six entries. -/
theorem fallback_persist_overflows_lastEventIds :
    confirmationTurn { title := "Tech Summit 2025" }
      { creatingEvent := some { title := "Tech Summit 2025" }
        lastEventIds := [11, 12, 13, 14, 15] }
      7 none "not"
      { aiConfirm := Except.ok "unclear", aiDirect := Except.ok "hmm"
        parseDate := fun _ => none, parseTime := fun _ => none
        createOk := true, newEventId := 10 } =
      Outcome.persisted
        { title := "Tech Summit 2025", startDate := none, location := none
          source := "user_created", userId := 7 }
        { creatingEvent := none, lastEventIds := [10, 11, 12, 13, 14, 15] } ∧
    ([10, 11, 12, 13, 14, 15] : List Nat).length > 5 :=
  ⟨by decide, by decide⟩

/-- C6 counterexample: a confirmation turn classified edit (AI tier answers
edit on "change the venue") returns the stored context unchanged, so
creatingEvent.waitingForConfirmation is still true after the turn, not
cleared to false as the claim states. -/
theorem edit_keeps_waiting_confirmation_counterexample :
    confirmationTurn { title := "Tech Summit 2025" }
      { creatingEvent := some { title := "Tech Summit 2025" } } 7 none
      "change the venue"
      { aiConfirm := Except.ok "edit", aiDirect := Except.ok "edit"
        parseDate := fun _ => none, parseTime := fun _ => none
        createOk := true, newEventId := 1 } =
      Outcome.editPrompt { creatingEvent := some { title := "Tech Summit 2025" } } ∧
    ({ title := "Tech Summit 2025" } : CreatingEvent).waitingForConfirmation = true :=
  ⟨by decide, by decide⟩

/-- C6 amended: on every confirmation turn classified edit, the conversation
context is returned unchanged — in particular waitingForConfirmation remains
true, so the next turn re-enters confirmation classification instead of the
draft-build step. -/
theorem edit_leaves_context_unchanged
    (ce : CreatingEvent) (ctx : ConvContext) (userId : Nat)
    (uloc : Option UserLoc) (msg : String) (env : TurnEnv)
    (he : (classifyConfirmation msg env).1 = ConfIntent.edit) :
    confirmationTurn ce ctx userId uloc msg env = Outcome.editPrompt ctx := by
  unfold confirmationTurn
  rw [he]

theorem edit_leaves_context_unchanged_witness :
    confirmationTurn { title := "Tech Summit 2025" }
      { creatingEvent := some { title := "Tech Summit 2025" }
        lastEventIds := [3] }
      7 none "change the venue"
      { aiConfirm := Except.ok "edit", aiDirect := Except.ok "edit"
        parseDate := fun _ => none, parseTime := fun _ => none
        createOk := true, newEventId := 1 } =
      Outcome.editPrompt
        { creatingEvent := some { title := "Tech Summit 2025" }
          lastEventIds := [3] } :=
  edit_leaves_context_unchanged { title := "Tech Summit 2025" }
    { creatingEvent := some { title := "Tech Summit 2025" }, lastEventIds := [3] }
    7 none "change the venue"
    { aiConfirm := Except.ok "edit", aiDirect := Except.ok "edit"
      parseDate := fun _ => none, parseTime := fun _ => none
      createOk := true, newEventId := 1 } (by decide)

/-- C7 counterexample: the creation flow applies no TBD filter, so a stored
extractedLocation equal to the literal "TBD" is persisted verbatim when the
user confirms the draft. -/
theorem creation_flow_persists_tbd_counterexample :
    confirmationTurn
      { title := "Anime Expo", extractedLocation := some "TBD" }
      { creatingEvent := some { title := "Anime Expo", extractedLocation := some "TBD" } }
      7 none "yes"
      { aiConfirm := Except.ok "x", aiDirect := Except.ok "x"
        parseDate := fun _ => none, parseTime := fun _ => none
        createOk := true, newEventId := 1 } =
      Outcome.persisted
        { title := "Anime Expo", startDate := none, location := some "TBD"
          source := "user_created", userId := 7 }
        { creatingEvent := none, lastEventIds := [1] } := by
  decide

/-- C7 amended: the discovery flow never persists a candidate whose location
is the literal "TBD" — its post-filter removes any candidate whose location
lowercases and trims to tbd before candidates are saved. The creation flow
has no corresponding filter. -/
theorem discovery_never_persists_tbd
    (cands : List REvent) (e : REvent) (he : e ∈ discoveryPostFilter cands) :
    e.location ≠ some "TBD" := by
  intro hloc
  have hmem : e ∈ cands.filter tbdKeep := List.mem_of_mem_take he
  have hk : tbdKeep e = true := (List.mem_filter.mp hmem).2
  unfold tbdKeep at hk
  rw [hloc] at hk
  exact absurd hk (by decide)

theorem discovery_never_persists_tbd_witness :
    (⟨"Anime Expo", some "http://a.example", some "Tokyo", none⟩ : REvent) ∈
      discoveryPostFilter [⟨"Anime Expo", some "http://a.example", some "Tokyo", none⟩] ∧
    (⟨"Anime Expo", some "http://a.example", some "Tokyo", none⟩ : REvent).location ≠
      some "TBD" :=
  ⟨by decide, discovery_never_persists_tbd
    [⟨"Anime Expo", some "http://a.example", some "Tokyo", none⟩]
    ⟨"Anime Expo", some "http://a.example", some "Tokyo", none⟩ (by decide)⟩

/-- Later result b duplicates earlier kept result a under the rule the code
applies: equal title keys, title similarity strictly above 0.9, or equal url
keys. -/
def dupOfKept (a b : REvent) : Prop :=
  titleKey b = titleKey a ∨ simGT09 (titleKey b) (titleKey a) = true ∨
  ∃ u, urlKey b = some u ∧ urlKey a = some u

theorem mem_extendUrls (o : Option String) (seenU : List String) (u : String)
    (h : u ∈ seenU) :
    u ∈ (match o with | some u0 => u0 :: seenU | none => seenU) := by
  cases o with
  | none => exact h
  | some u0 => exact List.mem_cons_of_mem u0 h

theorem dedupLoop_mem_avoids_seen (es : List REvent) :
    ∀ (seenT seenU : List String) (b : REvent), b ∈ dedupLoop es seenT seenU →
    (∀ t ∈ seenT, titleKey b ≠ t ∧ simGT09 (titleKey b) t = false) ∧
    (∀ u ∈ seenU, urlKey b ≠ some u) := by
  induction es with
  | nil =>
    intro seenT seenU b hb
    simp [dedupLoop] at hb
  | cons e es ih =>
    intro seenT seenU b hb
    simp only [dedupLoop] at hb
    split at hb
    · exact ih seenT seenU b hb
    · split at hb
      · exact ih seenT seenU b hb
      · next h1 h2 =>
        rcases List.mem_cons.mp hb with hbe | hbrest
        · subst hbe
          have hc1 : seenT.contains (titleKey b) = false := by
            cases hcc : seenT.contains (titleKey b) with
            | false => rfl
            | true => exact absurd (by rw [hcc]; simp) h1
          have hc2 : (match urlKey b with
              | some u0 => seenU.contains u0
              | none => false) = false := by
            cases hcc : (match urlKey b with
                | some u0 => seenU.contains u0
                | none => false) with
            | false => rfl
            | true => exact absurd (by rw [hcc]; simp) h1
          have hc3 : ∀ t ∈ seenT, simGT09 (titleKey b) t = false := by
            intro t ht
            cases hcc : simGT09 (titleKey b) t with
            | false => rfl
            | true =>
              exact absurd (List.any_eq_true.mpr ⟨t, ht, hcc⟩) h2
          refine ⟨fun t ht => ⟨?_, hc3 t ht⟩, ?_⟩
          · intro heq
            rw [heq] at hc1
            have hc1e : List.elem t seenT = false := hc1
            rw [List.elem_iff.mpr ht] at hc1e
            exact Bool.noConfusion hc1e
          · intro u hu heq
            rw [heq] at hc2
            have hc4 : List.elem u seenU = false := hc2
            rw [List.elem_iff.mpr hu] at hc4
            exact Bool.noConfusion hc4
        · have h3 := ih (titleKey e :: seenT)
            (match urlKey e with | some u0 => u0 :: seenU | none => seenU) b hbrest
          exact ⟨fun t ht => h3.1 t (List.mem_cons_of_mem _ ht),
            fun u hu => h3.2 u (mem_extendUrls (urlKey e) seenU u hu)⟩

theorem dedupLoop_pairwise (es : List REvent) :
    ∀ seenT seenU, (dedupLoop es seenT seenU).Pairwise (fun a b => ¬ dupOfKept a b) := by
  induction es with
  | nil =>
    intro seenT seenU
    simp [dedupLoop]
  | cons e es ih =>
    intro seenT seenU
    simp only [dedupLoop]
    split
    · exact ih seenT seenU
    · split
      · exact ih seenT seenU
      · refine List.Pairwise.cons ?_ (ih _ _)
        intro b hb hdup
        have h3 := dedupLoop_mem_avoids_seen es (titleKey e :: seenT)
          (match urlKey e with | some u0 => u0 :: seenU | none => seenU) b hb
        rcases hdup with h | h | ⟨u, hbu, heu⟩
        · exact (h3.1 (titleKey e) (List.mem_cons_self _ _)).1 h
        · have hf := (h3.1 (titleKey e) (List.mem_cons_self _ _)).2
          rw [hf] at h
          exact Bool.noConfusion h
        · have hm : u ∈ (match urlKey e with
              | some u0 => u0 :: seenU
              | none => seenU) := by
            rw [heu]
            exact List.mem_cons_self u seenU
          exact h3.2 u hm hbu

/-- C8 amended: after the in-batch deduplication, no kept result duplicates
an earlier kept one under the rule the code applies — equal title keys, url
key match, or similarity strictly greater than 0.9 (the comparison is
strict, not at-least); a later result matching a kept one under this rule is
discarded and only the first is kept. -/
theorem dedup_output_has_no_strict_duplicates (events : List REvent) :
    (dedupEvents events).Pairwise (fun a b => ¬ dupOfKept a b) :=
  dedupLoop_pairwise events [] []

/-- C8 counterexample: two titles of length 10 at edit distance 1 have
similarity exactly 0.9, which meets the at-least-0.9 threshold of the claim
but not the strict comparison the code makes, so the later result is kept
rather than discarded. -/
theorem similarity_point_nine_kept_counterexample :
    dedupEvents
      [⟨"animefest1", some "http://a.example", none, none⟩,
       ⟨"animefest2", some "http://b.example", none, none⟩] =
      [⟨"animefest1", some "http://a.example", none, none⟩,
       ⟨"animefest2", some "http://b.example", none, none⟩] ∧
    similarityNum (titleKey ⟨"animefest2", some "http://b.example", none, none⟩)
      (titleKey ⟨"animefest1", some "http://a.example", none, none⟩) = (9, 10) ∧
    10 * 9 ≥ 9 * 10 :=
  ⟨by decide, by decide, by decide⟩

/-- C9: a second createRegistration for a (userId, eventId) pair that
already has a registration returns the already-registered error and leaves
the registration store unchanged: no second row, no overwrite. -/
theorem duplicate_registration_rejected
    (store : List Registration) (userId eventId : Nat) (name email : String)
    (r : Registration) (hr : r ∈ store)
    (hu : r.userId = userId) (he : r.eventId = eventId) :
    createRegistration store userId eventId name email =
      (RegResult.err "You are already registered for this event", store) := by
  unfold createRegistration
  have hany : store.any (fun x => x.userId = userId && x.eventId = eventId) = true :=
    List.any_eq_true.mpr ⟨r, hr, by simp [hu, he]⟩
  simp [hany]

theorem duplicate_registration_rejected_witness :
    createRegistration
      [{ userId := 7, eventId := 3, name := "Rin", email := "rin@example.com"
         status := "confirmed" }] 7 3 "Rin" "rin@example.com" =
      (RegResult.err "You are already registered for this event",
       [{ userId := 7, eventId := 3, name := "Rin", email := "rin@example.com"
          status := "confirmed" }]) :=
  duplicate_registration_rejected
    [{ userId := 7, eventId := 3, name := "Rin", email := "rin@example.com"
       status := "confirmed" }] 7 3 "Rin" "rin@example.com"
    { userId := 7, eventId := 3, name := "Rin", email := "rin@example.com"
      status := "confirmed" } (List.mem_singleton.mpr rfl) rfl rfl

end AnimeChat
